import Mathlib

/-!
Shallow embedding of the `AzimuthalMap` React component
(src/unnamed/part_003, first document, the current version of
src/components/AzimuthalMap.tsx): an interactive azimuthal-equidistant
world map.  Rotation and zoom state, the Hammer.js pan/pinch handlers,
the d3-zoom wheel handler, the degree tick ring, the fetch/render mount
sequence, and the coordinate readout are modelled; theorems settle the
spec's claims about them.

JavaScript numbers are modelled as real numbers (`ℝ`); purely discrete
pieces (the tick ring, the mount render outcome, formatting) use `ℚ`,
`ℕ` and `String` and stay executable.
-/

namespace AzimuthalMap

/-! ## View geometry constants (the component's `useEffect`) -/

/-- `const width = 800`. -/
def width : ℚ := 800

/-- `const height = 800`. -/
def height : ℚ := 800

/-- `const padding = 40`. -/
def padding : ℚ := 40

/-- The clip / projection radius `(height - 20) / 2`, used as the tick
ring's outer radius and as the base projection scale. -/
def outerRadius : ℚ := (height - 20) / 2

/-! ## Component state

`rotationRef.current : [number, number, number]` (yaw, pitch, roll),
`zoomRef.current.k` (the d3 zoom transform's scale factor), the React
`coordinates` state, the closure variables `lastDeltaX` / `lastDeltaY`
(pan baseline) and `initialScale` (pinch baseline), and a count of
`updateMap()` invocations standing for the synchronous re-renders. -/

structure MapState where
  yaw : ℝ
  pitch : ℝ
  roll : ℝ
  zoomK : ℝ
  coordinates : ℝ × ℝ
  lastDeltaX : ℝ
  lastDeltaY : ℝ
  initialScale : ℝ
  renderCount : ℕ

/-- The state at mount: `rotationRef` starts at `[-13.27, -58.33, 0]`,
`zoomRef` at `d3.zoomIdentity` (`k = 1`), `coordinates` at
`[-13.27, -58.33]`, the gesture baselines at `0` / `1`, and the effect
body ends with one synchronous `updateMap()` call. -/
noncomputable def initialState : MapState :=
  { yaw := -13.27
    pitch := -58.33
    roll := 0
    zoomK := 1
    coordinates := (-13.27, -58.33)
    lastDeltaX := 0
    lastDeltaY := 0
    initialScale := 1
    renderCount := 1 }

/-! ## Gesture events -/

/-- One gesture callback invocation.  `wheel` stands for a d3-zoom
wheel/drag-zoom gesture requesting scale `targetK`; `panstart`,
`panmove`, `pinchstart` and `pinch` are the Hammer.js callbacks, with
`panmove` carrying the event's accumulated `ev.deltaX` / `ev.deltaY`
and `pinch` the event's `ev.scale` ratio. -/
inductive GestureEvent where
  | wheel (targetK : ℝ)
  | panstart
  | panmove (deltaX deltaY : ℝ)
  | pinchstart
  | pinch (scale : ℝ)

/-- The clamp d3-zoom applies to every requested scale because of
`.scaleExtent([0.5632, 8])`: wheel gestures and programmatic
`zoom.scaleTo` calls both go through it before the `"zoom"` event
fires (d3-zoom library behaviour, relied on by the component). -/
noncomputable def scaleExtentClamp (k : ℝ) : ℝ :=
  max 0.5632 (min 8 k)

/-- The `.on("zoom", ...)` handler: stores the transform in `zoomRef`,
rescales the projection and the render group, and calls `updateMap()`. -/
noncomputable def onZoomEvent (s : MapState) (k : ℝ) : MapState :=
  { s with zoomK := k, renderCount := s.renderCount + 1 }

/-- The `hammer.on("panstart", ...)` handler: resets the accumulated
pan-delta baseline `lastDeltaX = 0; lastDeltaY = 0`. -/
def onPanStart (s : MapState) : MapState :=
  { s with lastDeltaX := 0, lastDeltaY := 0 }

/-- The `hammer.on("panmove", ...)` handler:
`k = 0.3 / Math.sqrt(zoomRef.current.k)`;
`deltaX = ev.deltaX - lastDeltaX` (likewise for Y);
`newX = x + deltaX * k`;
`newY = Math.max(-90, Math.min(90, y - deltaY * k))`;
`rotationRef.current = [newX, newY, 0]`; `setCoordinates([newX, newY])`;
`updateMap()`; then the baseline is advanced to the event's deltas. -/
noncomputable def onPanMove (s : MapState) (evDeltaX evDeltaY : ℝ) : MapState :=
  let k := 0.3 / Real.sqrt s.zoomK
  let deltaX := evDeltaX - s.lastDeltaX
  let deltaY := evDeltaY - s.lastDeltaY
  let newX := s.yaw + deltaX * k
  let newY := max (-90) (min 90 (s.pitch - deltaY * k))
  { s with
    yaw := newX
    pitch := newY
    roll := 0
    coordinates := (newX, newY)
    renderCount := s.renderCount + 1
    lastDeltaX := evDeltaX
    lastDeltaY := evDeltaY }

/-- The `hammer.on("pinchstart", ...)` handler:
`initialScale = zoomRef.current.k`. -/
def onPinchStart (s : MapState) : MapState :=
  { s with initialScale := s.zoomK }

/-- The `hammer.on("pinch", ...)` handler:
`scale = Math.max(0.5632, Math.min(8, initialScale * ev.scale))`, then
`zoom.scaleTo(svg, scale)`, which constrains the scale to the extent
once more and fires the `"zoom"` event. -/
noncomputable def onPinch (s : MapState) (evScale : ℝ) : MapState :=
  let scale := max 0.5632 (min 8 (s.initialScale * evScale))
  onZoomEvent s (scaleExtentClamp scale)

/-- Dispatch of one gesture event to its handler. -/
noncomputable def step (s : MapState) : GestureEvent → MapState
  | .wheel targetK => onZoomEvent s (scaleExtentClamp targetK)
  | .panstart => onPanStart s
  | .panmove dx dy => onPanMove s dx dy
  | .pinchstart => onPinchStart s
  | .pinch sc => onPinch s sc

/-- The state after a sequence of gesture events from mount. -/
noncomputable def run (events : List GestureEvent) : MapState :=
  events.foldl step initialState

/-! ## The degree tick ring

The loop `for (let i = 0; i < 360; i += 5)` inside the fetch `.then`
callback: one radial `line` per iteration, a `text` label only when
`i % 10 === 0`; the line's inner radius is tiered by divisibility. -/

/-- One appended tick element: the degree, the line's inner radius, and
the label's text when one is appended (`i % 10 === 0`). -/
structure Tick where
  degree : ℕ
  innerRadius : ℚ
  label : Option String
  deriving Repr, DecidableEq

/-- The tiered inner radius:
`i % 60 === 0 → outerRadius * 0.05`, `i % 30 === 0 → outerRadius * 0.34`,
`i % 10 === 0 → outerRadius * 0.64`, otherwise `outerRadius * 0.8`. -/
def tickInnerRadius (i : ℕ) : ℚ :=
  if i % 60 = 0 then outerRadius * (5 / 100)
  else if i % 30 = 0 then outerRadius * (34 / 100)
  else if i % 10 = 0 then outerRadius * (64 / 100)
  else outerRadius * (8 / 10)

/-- The label appended when `i % 10 === 0`: `i.toString() + "º"`. -/
def tickLabel (i : ℕ) : Option String :=
  if i % 10 = 0 then some (toString i ++ "º") else none

/-- The loop's iteration values `0, 5, 10, ..., 355`. -/
def tickDegrees : List ℕ :=
  (List.range 72).map (· * 5)

/-- All ticks appended to `degreesGroup` by the loop. -/
def ticks : List Tick :=
  tickDegrees.map fun i =>
    { degree := i, innerRadius := tickInnerRadius i, label := tickLabel i }

/-! ## The mount render sequence and fetch failure

The `useEffect` body synchronously appends the background rect and wires
the zoom behaviour, then starts `d3.json(...)`.  The country paths, the
country labels, the Hammer handlers, the boundary circle and the degree
tick ring are all created inside the `.then` success callback; the
`.catch` handler logs one `console.error`. -/

/-- The outcome of the `d3.json` topology fetch: a resolved topology
with its number of decoded country features, or a rejection. -/
inductive FetchOutcome where
  | success (countryCount : ℕ)
  | failure
  deriving Repr, DecidableEq

/-- What the mount sequence has put on screen (and logged) once the
fetch promise settles. -/
structure RenderedScene where
  hasBackground : Bool
  countryPaths : ℕ
  countryLabels : ℕ
  hasBoundaryCircle : Bool
  tickLines : ℕ
  tickLabels : ℕ
  errorsLogged : ℕ
  threw : Bool
  deriving Repr, DecidableEq

/-- The mount sequence: the background rect is appended before the
fetch; the country paths/labels, boundary circle and tick ring only in
the `.then` callback; `.catch` logs exactly one error and nothing
escapes it. -/
def mountRender : FetchOutcome → RenderedScene
  | .success n =>
      { hasBackground := true
        countryPaths := n
        countryLabels := n
        hasBoundaryCircle := true
        tickLines := ticks.length
        tickLabels := (ticks.filterMap Tick.label).length
        errorsLogged := 0
        threw := false }
  | .failure =>
      { hasBackground := true
        countryPaths := 0
        countryLabels := 0
        hasBoundaryCircle := false
        tickLines := 0
        tickLabels := 0
        errorsLogged := 1
        threw := false }

/-- The claim's reading of "renders the background and tick-mark
scaffold (with no country shapes)": background present, the full tick
ring (72 lines, 36 labels) present, no country paths. -/
def scaffoldRendered (r : RenderedScene) : Prop :=
  r.hasBackground = true ∧ r.tickLines = 72 ∧ r.tickLabels = 36 ∧
    r.countryPaths = 0

instance (r : RenderedScene) : Decidable (scaffoldRendered r) := by
  unfold scaffoldRendered; infer_instance

/-! ## Path attribute generation

`updateMap` and the enter selection both set
`.attr("d", (d) => path(d) || "")`: a `null` (or empty) result of the
path generator becomes the empty string. -/

/-- The JavaScript `path(d) || ""` idiom: a missing path-generator
result renders as `""` (an empty string result is also `""`, as `||`
treats `""` as falsy). -/
def dAttr {α : Type} (pathFn : α → Option String) (d : α) : String :=
  match pathFn d with
  | none => ""
  | some s => s

/-! ## The coordinate readout

The `h2` element renders
``` `${coordinates[0].toFixed(2)}°, ${coordinates[1].toFixed(2)}°` ```
from the React `coordinates` state alone. -/

/-- Two decimal digits of a nonnegative integer below 100, zero-padded:
the fractional part of a `toFixed(2)` rendering. -/
def twoDigits (n : ℤ) : String :=
  (if n < 10 then "0" else "") ++ toString n

/-- `Number.prototype.toFixed(2)`: the sign of `x`, then the integer
`n` minimising `|n / 100 - |x||` (ties to the larger `n`, i.e.
`⌊100 * |x| + 1/2⌋`) printed with a decimal point before its last two
digits. -/
noncomputable def toFixed2 (x : ℝ) : String :=
  let sign := if x < 0 then "-" else ""
  let n : ℤ := ⌊100 * |x| + 1 / 2⌋
  sign ++ toString (n / 100) ++ "." ++ twoDigits (n % 100)

/-- The `h2` readout text as a function of the `coordinates` state. -/
noncomputable def readoutText (c : ℝ × ℝ) : String :=
  toFixed2 c.1 ++ "°, " ++ toFixed2 c.2 ++ "°"

/-- The readout the component shows in state `s`. -/
noncomputable def headerText (s : MapState) : String :=
  readoutText s.coordinates

/-! ## Helper lemmas -/

/-- The scale-extent clamp always lands in `[0.5632, 8]`. -/
lemma scaleExtentClamp_mem (k : ℝ) :
    0.5632 ≤ scaleExtentClamp k ∧ scaleExtentClamp k ≤ 8 := by
  unfold scaleExtentClamp
  exact ⟨le_max_left _ _, max_le (by norm_num) (min_le_left _ _)⟩

/-- The scale-extent clamp fixes scales already in `[0.5632, 8]`. -/
lemma scaleExtentClamp_eq_self {k : ℝ} (h₁ : 0.5632 ≤ k) (h₂ : k ≤ 8) :
    scaleExtentClamp k = k := by
  unfold scaleExtentClamp
  rw [min_eq_right h₂, max_eq_right h₁]

/-- Every gesture handler keeps the zoom scale inside `[0.5632, 8]`. -/
lemma step_zoomK_mem (s : MapState) (e : GestureEvent)
    (h : 0.5632 ≤ s.zoomK ∧ s.zoomK ≤ 8) :
    0.5632 ≤ (step s e).zoomK ∧ (step s e).zoomK ≤ 8 := by
  cases e with
  | wheel targetK => exact scaleExtentClamp_mem targetK
  | panstart => exact h
  | panmove dx dy => exact h
  | pinchstart => exact h
  | pinch sc => exact scaleExtentClamp_mem _

/-- The zoom-scale bounds are preserved along any event sequence. -/
lemma foldl_zoomK_mem (events : List GestureEvent) :
    ∀ s : MapState, 0.5632 ≤ s.zoomK ∧ s.zoomK ≤ 8 →
      0.5632 ≤ (events.foldl step s).zoomK ∧ (events.foldl step s).zoomK ≤ 8 := by
  induction events with
  | nil => intro s h; exact h
  | cons e rest ih =>
      intro s h
      exact ih (step s e) (step_zoomK_mem s e h)

/-- The tiered inner-radius formula, with the products evaluated:
`390 * 0.05 = 19.5`, `390 * 0.34 = 132.6`, `390 * 0.64 = 249.6`,
`390 * 0.8 = 312`. -/
lemma tickInnerRadius_eq (i : ℕ) :
    tickInnerRadius i =
      if i % 60 = 0 then 39 / 2
      else if i % 30 = 0 then 663 / 5
      else if i % 10 = 0 then 1248 / 5
      else 312 := by
  unfold tickInnerRadius outerRadius height
  split_ifs <;> norm_num

/-- The `coordinates` React state always mirrors the rotation's
yaw/pitch: they start equal and `panmove` is the only handler writing
either. -/
lemma coordinates_eq_rotation (events : List GestureEvent) :
    ∀ s : MapState, s.coordinates = (s.yaw, s.pitch) →
      (events.foldl step s).coordinates =
        ((events.foldl step s).yaw, (events.foldl step s).pitch) := by
  induction events with
  | nil => intro s h; exact h
  | cons e rest ih =>
      intro s h
      refine ih (step s e) ?_
      cases e with
      | wheel targetK => simpa [step, onZoomEvent] using h
      | panstart => simpa [step, onPanStart] using h
      | panmove dx dy => simp [step, onPanMove]
      | pinchstart => simpa [step, onPinchStart] using h
      | pinch sc => simpa [step, onPinch, onZoomEvent] using h

/-! ## The claims -/

/-- C1: after every `panmove` event the rotation's pitch lies in
`[-90, 90]` and its roll equals `0`, for every prior state and every
event delta — in particular for arbitrarily large yaw, about which the
handler (a total function here, with no partial operation) raises no
exception and which it leaves unclamped. -/
theorem panmove_pitch_clamped_roll_zero (s : MapState) (dx dy : ℝ) :
    -90 ≤ (step s (.panmove dx dy)).pitch ∧
      (step s (.panmove dx dy)).pitch ≤ 90 ∧
      (step s (.panmove dx dy)).roll = 0 := by
  refine ⟨le_max_left _ _, max_le (by norm_num) (min_le_left _ _), rfl⟩

/-- C2: starting from mount (`k = 1`), every sequence of gesture
events — wheel and pinch gestures of any magnitude included — leaves
the zoom scale factor inside `[0.5632, 8]`. -/
theorem zoom_scale_within_extent (events : List GestureEvent) :
    0.5632 ≤ (run events).zoomK ∧ (run events).zoomK ≤ 8 :=
  foldl_zoomK_mem events initialState (by norm_num [initialState])

/-- C3, counterexample: on fetch failure the component does NOT render
the tick-mark scaffold — the degree tick loop runs inside the fetch's
success callback, so a failed fetch leaves zero tick lines — so the
claim (background and tick-mark scaffold rendered, one error logged,
no throw) is false at the failure outcome. -/
theorem fetch_failure_claim_false :
    ¬ (scaffoldRendered (mountRender FetchOutcome.failure) ∧
        (mountRender FetchOutcome.failure).errorsLogged = 1 ∧
        (mountRender FetchOutcome.failure).threw = false) := by
  decide

/-- C3, amended: if the topology fetch fails, the component renders
the background but no tick marks (the tick ring is drawn only in the
fetch success callback, where it yields 72 lines and 36 labels) and no
country shapes, does not throw, and logs exactly one error. -/
theorem fetch_failure_renders_background_only :
    (mountRender FetchOutcome.failure).hasBackground = true ∧
      (mountRender FetchOutcome.failure).tickLines = 0 ∧
      (mountRender FetchOutcome.failure).tickLabels = 0 ∧
      (mountRender FetchOutcome.failure).countryPaths = 0 ∧
      (mountRender FetchOutcome.failure).errorsLogged = 1 ∧
      (mountRender FetchOutcome.failure).threw = false ∧
      (mountRender (FetchOutcome.success 177)).tickLines = 72 ∧
      (mountRender (FetchOutcome.success 177)).tickLabels = 36 := by
  refine ⟨rfl, rfl, rfl, rfl, rfl, rfl, by decide, by decide⟩

/-- C4: a `panmove` tick scales the incremental delta since the last
tick by `0.3 / √k` (`k` the current zoom scale), adds the scaled
horizontal delta to yaw, subtracts the scaled vertical delta from
pitch (clamping to `[-90, 90]`, per the source and the spec's
"clamping pitch to ±90°"), triggers exactly one synchronous re-render,
and advances the baseline; `panstart` resets the baseline to zero. -/
theorem panmove_delta_formula (s : MapState) (dx dy : ℝ) :
    (step s (.panmove dx dy)).yaw =
        s.yaw + (dx - s.lastDeltaX) * (0.3 / Real.sqrt s.zoomK) ∧
      (step s (.panmove dx dy)).pitch =
        max (-90) (min 90
          (s.pitch - (dy - s.lastDeltaY) * (0.3 / Real.sqrt s.zoomK))) ∧
      (step s (.panmove dx dy)).renderCount = s.renderCount + 1 ∧
      (step s (.panmove dx dy)).lastDeltaX = dx ∧
      (step s (.panmove dx dy)).lastDeltaY = dy ∧
      (step s .panstart).lastDeltaX = 0 ∧
      (step s .panstart).lastDeltaY = 0 :=
  ⟨rfl, rfl, rfl, rfl, rfl, rfl, rfl⟩

set_option maxRecDepth 8000 in
/-- C5: the tick ring draws exactly one radial line for each degree
`i ∈ {0, 5, ..., 355}`, a text label (the degree value, with the `º`
sign) exactly when `i` is a multiple of 10, and the line's inner
radius tiered by divisibility by 60 / 30 / 10 / none — multiples of 60
reaching strictly closest to the center. -/
theorem tick_ring_formula :
    (∀ i, i < 360 →
        (ticks.map Tick.degree).count i = if i % 5 = 0 then 1 else 0) ∧
      (∀ t ∈ ticks,
        t.label =
          if t.degree % 10 = 0 then some (toString t.degree ++ "º") else none) ∧
      (∀ t ∈ ticks,
        t.innerRadius =
          if t.degree % 60 = 0 then 39 / 2
          else if t.degree % 30 = 0 then 663 / 5
          else if t.degree % 10 = 0 then 1248 / 5
          else 312) ∧
      (∀ t ∈ ticks, ∀ u ∈ ticks, t.degree % 60 = 0 → ¬ u.degree % 60 = 0 →
        t.innerRadius < u.innerRadius) := by
  refine ⟨by decide, by decide, ?_, ?_⟩
  · intro t ht
    simp only [ticks, List.mem_map] at ht
    obtain ⟨i, _, rfl⟩ := ht
    exact tickInnerRadius_eq i
  · intro t ht u hu h60 hn60
    simp only [ticks, List.mem_map] at ht hu
    obtain ⟨i, _, rfl⟩ := ht
    obtain ⟨j, _, rfl⟩ := hu
    show tickInnerRadius i < tickInnerRadius j
    rw [tickInnerRadius_eq i, tickInnerRadius_eq j]
    rw [if_pos h60, if_neg hn60]
    split_ifs <;> norm_num

/-- C6: a `panmove` tick whose incremental delta is `(0, 0)` — the
event's accumulated deltas equal the stored baseline — leaves the
rotation triple unchanged, provided the pitch is already in
`[-90, 90]` and the roll is `0`. -/
theorem panmove_zero_delta_rotation_unchanged (s : MapState) (dx dy : ℝ)
    (hdx : dx = s.lastDeltaX) (hdy : dy = s.lastDeltaY)
    (h₁ : -90 ≤ s.pitch) (h₂ : s.pitch ≤ 90) (hr : s.roll = 0) :
    (step s (.panmove dx dy)).yaw = s.yaw ∧
      (step s (.panmove dx dy)).pitch = s.pitch ∧
      (step s (.panmove dx dy)).roll = s.roll := by
  subst hdx hdy
  refine ⟨?_, ?_, hr.symm⟩
  · show s.yaw + (s.lastDeltaX - s.lastDeltaX) * _ = s.yaw
    rw [sub_self, zero_mul, add_zero]
  · show max (-90) (min 90 (s.pitch - (s.lastDeltaY - s.lastDeltaY) * _)) = s.pitch
    rw [sub_self, zero_mul, sub_zero, min_eq_right h₂, max_eq_right h₁]

/-- C6 witness: a zero-incremental-delta `panmove` at the mount state
(pitch `-58.33 ∈ [-90, 90]`, roll `0`, baseline `(0, 0)`). -/
theorem panmove_zero_delta_rotation_unchanged_witness :
    (step initialState (.panmove 0 0)).yaw = initialState.yaw ∧
      (step initialState (.panmove 0 0)).pitch = initialState.pitch ∧
      (step initialState (.panmove 0 0)).roll = initialState.roll :=
  panmove_zero_delta_rotation_unchanged initialState 0 0 rfl rfl
    (by norm_num [initialState]) (by norm_num [initialState]) rfl

/-- C7: a pinch tick with scale ratio `1.0` sets the zoom scale back
to the baseline captured at `pinchstart`, hence leaves it unchanged,
whenever that baseline is already inside `[0.5632, 8]`. -/
theorem pinch_ratio_one_zoom_unchanged (s : MapState)
    (h₁ : 0.5632 ≤ s.zoomK) (h₂ : s.zoomK ≤ 8) :
    (step (step s .pinchstart) (.pinch 1)).zoomK = s.zoomK := by
  show scaleExtentClamp (max 0.5632 (min 8 (s.zoomK * 1))) = s.zoomK
  rw [mul_one, min_eq_right h₂, max_eq_right h₁,
    scaleExtentClamp_eq_self h₁ h₂]

/-- C7 witness: a ratio-`1.0` pinch at the mount state (`k = 1`). -/
theorem pinch_ratio_one_zoom_unchanged_witness :
    (step (step initialState .pinchstart) (.pinch 1)).zoomK =
      initialState.zoomK :=
  pinch_ratio_one_zoom_unchanged initialState
    (by norm_num [initialState]) (by norm_num [initialState])

/-- C8: when the path generator produces no output for a feature, the
rendered `d` attribute is the empty string — `dAttr` is a total
`String`-valued function, so no exception and no distinguished error
value is surfaced. -/
theorem path_none_renders_empty_string {α : Type} (pathFn : α → Option String)
    (d : α) (h : pathFn d = none) : dAttr pathFn d = "" := by
  unfold dAttr
  rw [h]

/-- C8 witness: a generator returning no output renders `""`. -/
theorem path_none_renders_empty_string_witness :
    dAttr (fun _ : Unit => (none : Option String)) () = "" :=
  path_none_renders_empty_string (fun _ : Unit => none) () rfl

/-- C9: after any sequence of gesture events, the coordinate readout's
text is exactly the current yaw and pitch each formatted to two
decimal places — it is pure formatting of the rotation state, with no
independent state of its own. -/
theorem readout_pure_formatting (events : List GestureEvent) :
    headerText (run events) =
      toFixed2 (run events).yaw ++ "°, " ++ toFixed2 (run events).pitch ++ "°" := by
  unfold headerText readoutText run
  rw [coordinates_eq_rotation events initialState rfl]

/-- C10: the gesture handlers are frame-disjoint — `panmove` and
`panstart` never change the zoom scale, and the zoom-side handlers
(wheel, `pinchstart`, pinch) never change the rotation triple. -/
theorem gesture_handlers_frame_disjoint (s : MapState) (dx dy t r : ℝ) :
    (step s (.panmove dx dy)).zoomK = s.zoomK ∧
      (step s .panstart).zoomK = s.zoomK ∧
      ((step s (.wheel t)).yaw = s.yaw ∧
        (step s (.wheel t)).pitch = s.pitch ∧
        (step s (.wheel t)).roll = s.roll) ∧
      ((step s .pinchstart).yaw = s.yaw ∧
        (step s .pinchstart).pitch = s.pitch ∧
        (step s .pinchstart).roll = s.roll) ∧
      ((step s (.pinch r)).yaw = s.yaw ∧
        (step s (.pinch r)).pitch = s.pitch ∧
        (step s (.pinch r)).roll = s.roll) :=
  ⟨rfl, rfl, ⟨rfl, rfl, rfl⟩, ⟨rfl, rfl, rfl⟩, ⟨rfl, rfl, rfl⟩⟩

end AzimuthalMap
